import Mathlib

/-!
Shallow embedding of the audio-quality analysis pipeline of
`kathishah/audio-analyzer`, translated from `src/audio_analyzer/analyzer.py`
and `src/audio_analyzer/utils.py`.

Conventions of the embedding:
* Finite Python floats are idealized as rationals (`ℚ`); the non-finite IEEE-754
  values NaN, +inf and -inf, which the SNR computation can produce, are explicit
  constructors of `PyFloat`.  Comparison operators on `PyFloat` follow IEEE-754
  (every comparison with NaN is false).
* `10 * np.log10 r` for a finite positive rational `r` is transcendental, so it is
  kept symbolic: constructor `SnrRaw.tenLog10 r` denotes the real number
  10*log10(r), and `SnrOut.round2TenLog10 r` denotes that value rounded to two
  decimals.  All non-finite cases of the computation are evaluated concretely.
* External library calls (libmagic sniffing, ffprobe, pydub decoding, soundfile
  reading, the pesq scorer, numpy RNG) are inputs of the model: their outcomes are
  fields of `PipelineEnv`.  The control flow around them is translated from the
  source.
* Filesystem effects are modelled as an event trace (`FsEvent`): creating the
  temporary WAV file and deleting a file.
-/

/-- Python `str.startswith` / `str.endswith` share this character-list test:
`listIsInit p s` holds when `p` is an initial segment of `s`. -/
def listIsInit : List Char → List Char → Bool
  | [], _ => true
  | _ :: _, [] => false
  | a :: as, b :: bs => a = b && listIsInit as bs

/-- Python `s.startswith(pat)`. -/
def strStartsWith (s pat : String) : Bool :=
  listIsInit pat.data s.data

/-- Python `s.endswith(pat)`. -/
def strEndsWith (s pat : String) : Bool :=
  listIsInit pat.data.reverse s.data.reverse

/-- A Python/numpy double: NaN, the two infinities, or a finite value idealized
as a rational. -/
inductive PyFloat where
  | nan : PyFloat
  | inf : PyFloat
  | ninf : PyFloat
  | val : ℚ → PyFloat
  deriving DecidableEq

/-- IEEE-754 `<` on doubles: any comparison involving NaN is false. -/
def pyLt : PyFloat → PyFloat → Bool
  | PyFloat.nan, _ => false
  | _, PyFloat.nan => false
  | PyFloat.ninf, PyFloat.ninf => false
  | PyFloat.ninf, _ => true
  | _, PyFloat.ninf => false
  | PyFloat.inf, _ => false
  | PyFloat.val _, PyFloat.inf => true
  | PyFloat.val a, PyFloat.val b => a < b

/-- IEEE-754 `<=` on doubles: any comparison involving NaN is false. -/
def pyLe : PyFloat → PyFloat → Bool
  | PyFloat.nan, _ => false
  | _, PyFloat.nan => false
  | PyFloat.ninf, _ => true
  | _, PyFloat.ninf => false
  | _, PyFloat.inf => true
  | PyFloat.inf, _ => false
  | PyFloat.val a, PyFloat.val b => a ≤ b

/-- `AudioAnalyzer.categorize_pesq` (analyzer.py lines 22-42), translated branch
by branch; Python`s chained `1 <= pesq_score < 2` is the conjunction of the two
comparisons. -/
def categorize_pesq (pesq_score : PyFloat) : String :=
  if pyLt pesq_score (PyFloat.val 1) then "Poor Quality"
  else if pyLe (PyFloat.val 1) pesq_score && pyLt pesq_score (PyFloat.val 2) then "Fair Quality"
  else if pyLe (PyFloat.val 2) pesq_score && pyLt pesq_score (PyFloat.val 3) then "Good Quality"
  else if pyLe (PyFloat.val 3) pesq_score && pyLt pesq_score (PyFloat.val 4) then "Excellent Quality"
  else "Outstanding Quality"

/-- Python `round` with `ndigits`: round-half-to-even of the exact value. -/
def roundHalfEven (q : ℚ) : ℤ :=
  let f := Int.floor q
  let frac := q - f
  if frac < 1 / 2 then f
  else if 1 / 2 < frac then f + 1
  else if f % 2 = 0 then f else f + 1

/-- Python `round(x, 2)` on a double: non-finite inputs are returned unchanged
(CPython returns NaN/inf unchanged when ndigits is given); finite values are
rounded to two decimals. -/
def py_round2 : PyFloat → PyFloat
  | PyFloat.nan => PyFloat.nan
  | PyFloat.inf => PyFloat.inf
  | PyFloat.ninf => PyFloat.ninf
  | PyFloat.val q => PyFloat.val ((roundHalfEven (100 * q) : ℚ) / 100)

/-- `np.mean(xs ** 2)` for a 1-D buffer: NaN on the empty buffer (numpy`s mean of
an empty array), otherwise the rational mean of squares. -/
def np_mean_sq (xs : List ℚ) : PyFloat :=
  match xs with
  | [] => PyFloat.nan
  | _ :: _ => PyFloat.val ((xs.map (fun x => x * x)).sum / (xs.length : ℚ))

/-- IEEE-754 division `a / b` of numpy doubles (numpy emits a warning but no
exception on 0/0 and x/0). -/
def pyDivF : PyFloat → PyFloat → PyFloat
  | PyFloat.nan, _ => PyFloat.nan
  | _, PyFloat.nan => PyFloat.nan
  | PyFloat.inf, PyFloat.inf => PyFloat.nan
  | PyFloat.inf, PyFloat.ninf => PyFloat.nan
  | PyFloat.ninf, PyFloat.inf => PyFloat.nan
  | PyFloat.ninf, PyFloat.ninf => PyFloat.nan
  | PyFloat.inf, PyFloat.val b => if b < 0 then PyFloat.ninf else PyFloat.inf
  | PyFloat.ninf, PyFloat.val b => if b < 0 then PyFloat.inf else PyFloat.ninf
  | PyFloat.val _, PyFloat.inf => PyFloat.val 0
  | PyFloat.val _, PyFloat.ninf => PyFloat.val 0
  | PyFloat.val a, PyFloat.val b =>
      if b = 0 then
        if a = 0 then PyFloat.nan
        else if a < 0 then PyFloat.ninf
        else PyFloat.inf
      else PyFloat.val (a / b)

/-- Value of the variable `snr` (analyzer.py line 163): NaN, an infinity, or the
symbolic finite value `tenLog10 r` denoting the real 10·log10(r) with r > 0. -/
inductive SnrRaw where
  | nan : SnrRaw
  | inf : SnrRaw
  | ninf : SnrRaw
  | tenLog10 : ℚ → SnrRaw
  deriving DecidableEq

/-- `10 * np.log10 x` on a double: log10 of NaN, of a negative value or of -inf
is NaN; log10(+inf) = +inf; log10(0) = -inf; multiplying by 10 preserves all
non-finite values. -/
def ten_log10 : PyFloat → SnrRaw
  | PyFloat.nan => SnrRaw.nan
  | PyFloat.inf => SnrRaw.inf
  | PyFloat.ninf => SnrRaw.nan
  | PyFloat.val q =>
      if q < 0 then SnrRaw.nan
      else if q = 0 then SnrRaw.ninf
      else SnrRaw.tenLog10 q

/-- `snr = 10 * np.log10(signal_power / noise_power)` with
`noise_power = np.mean(noise ** 2)` and `signal_power = np.mean(audio ** 2)`
(analyzer.py lines 159-163). -/
def compute_snr (audio noise : List ℚ) : SnrRaw :=
  ten_log10 (pyDivF (np_mean_sq audio) (np_mean_sq noise))

/-- Value of `round(snr, 2)` (analyzer.py line 169): non-finite values pass
through `round` unchanged; `round2TenLog10 r` denotes round(10·log10 r, 2). -/
inductive SnrOut where
  | nan : SnrOut
  | inf : SnrOut
  | ninf : SnrOut
  | round2TenLog10 : ℚ → SnrOut
  deriving DecidableEq

/-- Python `round(snr, 2)` applied to the SNR value. -/
def py_round2_snr : SnrRaw → SnrOut
  | SnrRaw.nan => SnrOut.nan
  | SnrRaw.inf => SnrOut.inf
  | SnrRaw.ninf => SnrOut.ninf
  | SnrRaw.tenLog10 r => SnrOut.round2TenLog10 r

/-- The Python exception classes that can cross the pipeline`s stage boundaries:
`ValueError` raised by `convert_to_wav` itself, and the exceptions of the
external libraries (libmagic/OS errors while sniffing, pydub decode errors,
soundfile read errors, pesq computation errors). -/
inductive PyExc where
  | valueError : String → PyExc
  | fileError : String → PyExc
  | pydubError : String → PyExc
  | soundfileError : String → PyExc
  | pesqError : String → PyExc
  deriving DecidableEq

/-- One entry of the ffprobe stream list (utils.py `get_media_info`): only the
`codec_type` tag is consulted by the source. -/
structure MediaStream where
  codec_type : String
  deriving DecidableEq

/-- The array returned by `sf.read`: either a 1-D mono buffer or a 2-D
frame-major buffer (one inner list of channel samples per frame). -/
inductive AudioData where
  | mono : List ℚ → AudioData
  | multi : List (List ℚ) → AudioData
  deriving DecidableEq

/-- Outcomes of all external calls made during one `analyze_audio` invocation.
The control flow around these outcomes is translated from the source; the
outcomes themselves (what libmagic, ffprobe, pydub, soundfile, pesq and the
numpy RNG return for this particular input file) are inputs of the model.
`temp_path` is the fresh name returned by `create_temp_wav` (utils.py lines
54-64; the `tempfile` name carries the suffix ".wav" and is distinct from any
existing path). `noise_draws` is the invocation`s standard-normal entropy
source, one draw per index. -/
structure PipelineEnv where
  path : String
  file_type : Except PyExc String
  media_info : Option (List MediaStream)
  temp_path : String
  convert_result : Except PyExc Unit
  read_result : Except PyExc (AudioData × ℕ)
  pesq_fn : ℕ → List ℚ → List ℚ → Except PyExc PyFloat
  noise_draws : ℕ → ℚ

/-- Filesystem effects of one invocation, in program order. -/
inductive FsEvent where
  | createTemp : String → FsEvent
  | delete : String → FsEvent
  deriving DecidableEq

/-- `cleanup_temp_file` (utils.py lines 40-52): unlink the file only when it
exists and its name ends in ".wav". -/
def cleanup_temp_file (exists_on_disk : Bool) (file_path : String) : List FsEvent :=
  if exists_on_disk && strEndsWith file_path ".wav" then [FsEvent.delete file_path] else []

/-- The WebM reclassification block of `convert_to_wav` (analyzer.py lines
63-72): when the sniffed type is `video/webm` and ffprobe returned a stream
list, the type is rewritten to `audio/webm` unless some stream is tagged as
video.  An ffprobe failure (`media_info = none`) leaves the type unchanged. -/
def probe_file_type (file_type : String) (media_info : Option (List MediaStream)) : String :=
  if file_type = "video/webm" then
    match media_info with
    | some streams =>
        if streams.any (fun s => s.codec_type = "video") then file_type else "audio/webm"
    | none => file_type
  else file_type

/-- `AudioAnalyzer.convert_to_wav` (analyzer.py lines 44-107).  Returns the
resulting WAV path (or the propagated exception) together with the filesystem
events of the call.  The early return for `audio/x-wav` performs no probing and
creates nothing; a rejected type raises `ValueError` carrying the final type;
otherwise a temporary WAV is created and, if the pydub decode/export fails, it
is cleaned up before the exception propagates. -/
def convert_to_wav (env : PipelineEnv) : Except PyExc String × List FsEvent :=
  match env.file_type with
  | Except.error e => (Except.error e, [])
  | Except.ok sniffed =>
    if sniffed = "audio/x-wav" then (Except.ok env.path, [])
    else
      let file_type := probe_file_type sniffed env.media_info
      if !(strStartsWith file_type "audio/" || file_type = "video/webm") then
        (Except.error (PyExc.valueError
            ("File is not an audio file or video with audio. Detected type: " ++ file_type)), [])
      else
        match env.convert_result with
        | Except.ok _ => (Except.ok env.temp_path, [FsEvent.createTemp env.temp_path])
        | Except.error e =>
            (Except.error e,
             FsEvent.createTemp env.temp_path :: cleanup_temp_file true env.temp_path)

/-- Stereo-to-mono downmix (analyzer.py lines 132-135): a 2-D buffer is reduced
with `np.mean(audio, axis=1)`, the per-frame arithmetic mean of the channels. -/
def to_mono : AudioData → List ℚ
  | AudioData.mono samples => samples
  | AudioData.multi frames => frames.map (fun frame => frame.sum / (frame.length : ℚ))

/-- Modelled from the spec: `scipy.signal.resample` (an external library) is an
FFT resampler whose output values are not rationally representable; only its
length contract — it returns exactly `num` samples — is modelled (§4.3 of the
spec), and no theorem below depends on the returned sample values. -/
def signal_resample (x : List ℚ) (num : ℕ) : List ℚ :=
  (List.range num).map (fun i => x.getD i 0)

/-- The resampling step of `analyze_audio` (analyzer.py lines 141-147): when the
source rate differs from 16000, the buffer is resampled to
`round(len(audio) * 16000 / sample_rate)` samples and the rate becomes 16000. -/
def condition_signal (audio : List ℚ) (sample_rate : ℕ) : List ℚ × ℕ :=
  if sample_rate ≠ 16000 then
    let number_of_samples := (roundHalfEven ((audio.length : ℚ) * 16000 / (sample_rate : ℚ))).toNat
    (signal_resample audio number_of_samples, 16000)
  else (audio, sample_rate)

/-- `np.random.normal(mu, sigma, n)`: n independent draws from the normal
distribution with mean `mu` and standard deviation `sigma`; draw i is
represented as `mu + sigma * g i` where `g` is the invocation`s standard-normal
entropy source. -/
def np_random_normal (mu sigma : ℚ) (n : ℕ) (g : ℕ → ℚ) : List ℚ :=
  (List.range n).map (fun i => mu + sigma * g i)

/-- `noise = np.random.normal(0, 0.01, len(audio))` (analyzer.py line 151). -/
def make_noise (audio : List ℚ) (g : ℕ → ℚ) : List ℚ :=
  np_random_normal 0 (1 / 100) audio.length g

/-- `degraded_audio = audio + noise` (analyzer.py line 152), numpy elementwise
addition. -/
def make_degraded (audio : List ℚ) (g : ℕ → ℚ) : List ℚ :=
  List.zipWith (fun a b => a + b) audio (make_noise audio g)

/-- The value type of the `results` dictionary (analyzer.py lines 166-171). -/
inductive Value where
  | float : PyFloat → Value
  | snr : SnrOut → Value
  | str : String → Value
  | int : ℕ → Value
  deriving DecidableEq

/-- The `results` dictionary: Python dict as an association list. -/
abbrev ResultsDict := List (String × Value)

/-- The body of the `try` block of `analyze_audio` after the conversion step
(analyzer.py lines 126-174): read the WAV (outcome `env.read_result`), downmix,
cast to float32 (exact in this idealization), resample to 16 kHz, synthesize
the degraded signal, score it with pesq, compute the SNR and build the results
dictionary.  `wav_file` is the path being read; the read outcome is supplied by
the environment. -/
def analyze_core (env : PipelineEnv) (wav_file : String) : Except PyExc ResultsDict :=
  match env.read_result with
  | Except.error e => Except.error e
  | Except.ok (data, rate0) =>
    let audio0 := to_mono data
    let conditioned := condition_signal audio0 rate0
    let audio := conditioned.1
    let sample_rate := conditioned.2
    let noise := make_noise audio env.noise_draws
    let degraded_audio := make_degraded audio env.noise_draws
    match env.pesq_fn sample_rate audio degraded_audio with
    | Except.error e => Except.error e
    | Except.ok pesq_score =>
        Except.ok
          [("pesq_score", Value.float (py_round2 pesq_score)),
           ("quality_category", Value.str (categorize_pesq pesq_score)),
           ("snr_db", Value.snr (py_round2_snr (compute_snr audio noise))),
           ("sample_rate", Value.int sample_rate)]

/-- The `try ... finally` part of `analyze_audio` (analyzer.py lines 119-182),
before the `except` clause: the conversion outcome decides `wav_file`; the
`finally` block runs `cleanup_temp_file(wav_file)` exactly when `wav_file` was
assigned and differs from the input path.  When the conversion raised,
`wav_file` is still `None` and the `finally` block deletes nothing. -/
def analyze_audio_try (env : PipelineEnv) : Except PyExc ResultsDict × List FsEvent :=
  match convert_to_wav env with
  | (Except.error e, evs) => (Except.error e, evs)
  | (Except.ok wav_file, evs) =>
      let fin_evs := if wav_file ≠ env.path then cleanup_temp_file true wav_file else []
      (analyze_core env wav_file, evs ++ fin_evs)

/-- `AudioAnalyzer.analyze_audio` (analyzer.py lines 109-182): the
`except Exception` clause maps every propagated exception to `None`. -/
def analyze_audio (env : PipelineEnv) : Option ResultsDict × List FsEvent :=
  match analyze_audio_try env with
  | (Except.ok r, evs) => (some r, evs)
  | (Except.error _, evs) => (none, evs)

/-- An entropy source drawing 0 at every index (a possible, degenerate draw). -/
def zeroDraws : ℕ → ℚ := fun _ => 0

/-- A concrete input environment: the file sniffs as canonical WAV, reads as an
empty mono buffer at 16 kHz, and the pesq scorer returns NaN. -/
def envWav : PipelineEnv :=
  ⟨"in.wav", Except.ok "audio/x-wav", none, "tmp0.wav", Except.ok (),
   Except.ok (AudioData.mono [], 16000), fun _ _ _ => Except.ok PyFloat.nan, zeroDraws⟩

/-- A concrete input environment: the file sniffs as a PDF. -/
def envPdf : PipelineEnv :=
  ⟨"doc.pdf", Except.ok "application/pdf", none, "tmp1.wav", Except.ok (),
   Except.ok (AudioData.mono [], 16000), fun _ _ _ => Except.ok (PyFloat.val 1), zeroDraws⟩

/-- A concrete input environment: a canonical WAV whose pesq computation
raises. -/
def envPesqFail : PipelineEnv :=
  ⟨"in2.wav", Except.ok "audio/x-wav", none, "tmp2.wav", Except.ok (),
   Except.ok (AudioData.mono [], 16000),
   fun _ _ _ => Except.error (PyExc.pesqError "processing error"), zeroDraws⟩

/-- A concrete input environment: a WebM container whose ffprobe stream list
contains a video stream, and whose pydub conversion succeeds. -/
def envWebmVideo : PipelineEnv :=
  ⟨"in.webm", Except.ok "video/webm", some [⟨"video"⟩, ⟨"audio"⟩], "tmpv.wav", Except.ok (),
   Except.ok (AudioData.mono [], 16000), fun _ _ _ => Except.ok (PyFloat.val 2), zeroDraws⟩

/-- A concrete input environment: the libmagic sniff itself raises (for example
the input path does not exist). -/
def envMagicFail : PipelineEnv :=
  ⟨"missing.wav", Except.error (PyExc.fileError "FileNotFoundError"), none, "tmp3.wav",
   Except.ok (), Except.error (PyExc.fileError "FileNotFoundError"),
   fun _ _ _ => Except.ok (PyFloat.val 1), zeroDraws⟩

/-- The results dictionary produced on `envWav`. -/
def wavResults : ResultsDict :=
  [("pesq_score", Value.float PyFloat.nan),
   ("quality_category", Value.str "Outstanding Quality"),
   ("snr_db", Value.snr SnrOut.nan),
   ("sample_rate", Value.int 16000)]

/-- Claim C10: the classifier applied to a NaN score falls through every ordered
comparison of the branch chain and returns the final else branch,
"Outstanding Quality"; the classifier is total on all IEEE floating-point
inputs. -/
theorem claim_C10_classifier_nan : categorize_pesq PyFloat.nan = "Outstanding Quality" := by
  decide

/-- Claim C1, behaviour of the code at the failing input: with an all-zero clean
buffer and an all-zero noise buffer both powers are 0, numpy evaluates 0/0 to
NaN, log10 of NaN is NaN, and `round` keeps NaN, so `snr_db` is NaN — not the
0.0 required by the claim (and asserted by the repository`s own test
`test_analyze_audio_zero_signal`). -/
theorem claim_C1_snr_nan_at_silence :
    py_round2_snr (compute_snr [0] [0]) = SnrOut.nan := by
  norm_num [py_round2_snr, compute_snr, np_mean_sq, pyDivF, ten_log10]

/-- Claim C5: the classifier is a total function on finite scores matching the
table, with every boundary value assigned to the upper bucket. -/
theorem claim_C5_classifier_table (s : ℚ) :
    (s < 1 → categorize_pesq (PyFloat.val s) = "Poor Quality") ∧
    (1 ≤ s ∧ s < 2 → categorize_pesq (PyFloat.val s) = "Fair Quality") ∧
    (2 ≤ s ∧ s < 3 → categorize_pesq (PyFloat.val s) = "Good Quality") ∧
    (3 ≤ s ∧ s < 4 → categorize_pesq (PyFloat.val s) = "Excellent Quality") ∧
    (4 ≤ s → categorize_pesq (PyFloat.val s) = "Outstanding Quality") := by
  refine ⟨fun h => ?_, fun h => ?_, fun h => ?_, fun h => ?_, fun h => ?_⟩
  · simp [categorize_pesq, pyLt, pyLe, h]
  · have h1 : ¬s < 1 := not_lt.mpr h.1
    simp [categorize_pesq, pyLt, pyLe, h.1, h.2, h1]
  · have h1 : ¬s < 1 := not_lt.mpr (by linarith [h.1])
    have h2 : ¬s < 2 := not_lt.mpr h.1
    have h3 : (1 : ℚ) ≤ s := by linarith [h.1]
    simp [categorize_pesq, pyLt, pyLe, h.1, h.2, h1, h2, h3]
  · have h1 : ¬s < 1 := not_lt.mpr (by linarith [h.1])
    have h2 : ¬s < 2 := not_lt.mpr (by linarith [h.1])
    have h3 : ¬s < 3 := not_lt.mpr h.1
    have h4 : (1 : ℚ) ≤ s := by linarith [h.1]
    have h5 : (2 : ℚ) ≤ s := by linarith [h.1]
    simp [categorize_pesq, pyLt, pyLe, h.1, h.2, h1, h2, h3, h4, h5]
  · have h1 : ¬s < 1 := not_lt.mpr (by linarith [h])
    have h2 : ¬s < 2 := not_lt.mpr (by linarith [h])
    have h3 : ¬s < 3 := not_lt.mpr (by linarith [h])
    have h4 : ¬s < 4 := not_lt.mpr h
    simp [categorize_pesq, pyLt, pyLe, h1, h2, h3, h4]

/-- Claim C5 witness: the boundary scores 1.0 and 4.0 land in the upper
buckets. -/
theorem claim_C5_witness :
    categorize_pesq (PyFloat.val 1) = "Fair Quality" ∧
    categorize_pesq (PyFloat.val 4) = "Outstanding Quality" :=
  ⟨(claim_C5_classifier_table 1).2.1 ⟨le_refl 1, by norm_num⟩,
   (claim_C5_classifier_table 4).2.2.2.2 (le_refl 4)⟩

/-- Claim C7: an input sniffed as the canonical WAV MIME type is returned
unchanged by the converter, with no filesystem event (no temporary file). -/
theorem claim_C7_wav_passthrough (env : PipelineEnv)
    (h : env.file_type = Except.ok "audio/x-wav") :
    convert_to_wav env = (Except.ok env.path, []) := by
  simp [convert_to_wav, h]

/-- Claim C7 witness: the concrete canonical-WAV environment is passed through
with an empty event trace. -/
theorem claim_C7_witness : convert_to_wav envWav = (Except.ok "in.wav", []) :=
  claim_C7_wav_passthrough envWav rfl

/-- Claim C3, counterexample: a WebM container whose stream list does contain a
video stream keeps the type `video/webm`, which the acceptance check
`file_type.startswith("audio/") or file_type == "video/webm"` accepts, so the
converter proceeds and returns a converted file instead of failing with the
unsupported-format error claimed. -/
theorem claim_C3_counterexample :
    (convert_to_wav envWebmVideo).1 = Except.ok "tmpv.wav" := by
  rfl

/-- Claim C3 as amended, both directions of the format check: when the final
probed type neither starts with "audio/" nor equals "video/webm" the converter
fails with the ValueError carrying the final detected type string; and when the
final type is accepted — in particular for a WebM container that does contain a
video stream — the unsupported-format failure never occurs: the call returns
the input path unchanged, returns the converted temporary file, or propagates
the conversion stage`s own failure. -/
theorem claim_C3_amended (env : PipelineEnv) (sniffed : String)
    (hs : env.file_type = Except.ok sniffed) :
    (strStartsWith (probe_file_type sniffed env.media_info) "audio/" = false ∧
        probe_file_type sniffed env.media_info ≠ "video/webm" →
      convert_to_wav env =
        (Except.error (PyExc.valueError
          ("File is not an audio file or video with audio. Detected type: "
            ++ probe_file_type sniffed env.media_info)), [])) ∧
    (strStartsWith (probe_file_type sniffed env.media_info) "audio/" = true ∨
        probe_file_type sniffed env.media_info = "video/webm" →
      (convert_to_wav env).1 = Except.ok env.path ∨
      (convert_to_wav env).1 = Except.ok env.temp_path ∨
      (∃ e, env.convert_result = Except.error e ∧
        (convert_to_wav env).1 = Except.error e)) := by
  constructor
  · intro h
    obtain ⟨h1, h2⟩ := h
    have hw : sniffed ≠ "audio/x-wav" := by
      intro hcontra
      subst hcontra
      have hp : probe_file_type "audio/x-wav" env.media_info = "audio/x-wav" := by
        simp [probe_file_type]
      rw [hp] at h1
      exact absurd h1 (by decide)
    simp [convert_to_wav, hs, hw, h1, h2]
  · intro hacc
    by_cases hs2 : sniffed = "audio/x-wav"
    · left
      simp [convert_to_wav, hs, hs2]
    · have hb : (strStartsWith (probe_file_type sniffed env.media_info) "audio/"
          || probe_file_type sniffed env.media_info = "video/webm") = true := by
        rcases hacc with h | h <;> simp [h]
      rcases hcr : env.convert_result with e | u
      · right; right
        exact ⟨e, rfl, by simp [convert_to_wav, hs, hs2, hb, hcr]⟩
      · right; left
        simp [convert_to_wav, hs, hs2, hb, hcr]

/-- Claim C3 amended, witness: a PDF input is rejected with the ValueError whose
message carries the detected type, and the video-bearing WebM input, whose
final type is accepted, does not hit the format check failure. -/
theorem claim_C3_amended_witness :
    convert_to_wav envPdf =
      (Except.error (PyExc.valueError
        ("File is not an audio file or video with audio. Detected type: "
          ++ probe_file_type "application/pdf" envPdf.media_info)), []) ∧
    ((convert_to_wav envWebmVideo).1 = Except.ok envWebmVideo.path ∨
     (convert_to_wav envWebmVideo).1 = Except.ok envWebmVideo.temp_path ∨
     (∃ e, envWebmVideo.convert_result = Except.error e ∧
        (convert_to_wav envWebmVideo).1 = Except.error e)) :=
  ⟨(claim_C3_amended envPdf "application/pdf" rfl).1 ⟨by decide, by decide⟩,
   (claim_C3_amended envWebmVideo "video/webm" rfl).2 (Or.inr (by decide))⟩

/-- Index lemma: element i of a map over `List.range`. -/
theorem getD_range_map (f : ℕ → ℚ) (n i : ℕ) (h : i < n) :
    ((List.range n).map f).getD i 0 = f i := by
  rw [List.getD_eq_getElem?_getD, List.getElem?_map, List.getElem?_range h]
  rfl

/-- Index lemma: elementwise description of `zipWith` addition. -/
theorem getD_zipWith_add (as bs : List ℚ) (i : ℕ) (ha : i < as.length) (hb : i < bs.length) :
    (List.zipWith (fun a b => a + b) as bs).getD i 0 = as.getD i 0 + bs.getD i 0 := by
  have h1 : as[i]? = some as[i] := List.getElem?_eq_getElem ha
  have h2 : bs[i]? = some bs[i] := List.getElem?_eq_getElem hb
  rw [List.getD_eq_getElem?_getD, List.getElem?_zipWith, h1, h2,
      List.getD_eq_getElem?_getD, List.getD_eq_getElem?_getD, h1, h2]
  rfl

/-- The synthesized noise buffer has the length of the clean buffer. -/
theorem make_noise_length (audio : List ℚ) (g : ℕ → ℚ) :
    (make_noise audio g).length = audio.length := by
  simp [make_noise, np_random_normal]

/-- Claim C8: the synthesizer draws exactly `len(audio)` noise samples, each of
the form 0 + 0.01·gᵢ (a draw from the zero-mean Gaussian with standard
deviation 0.01, expressed through the invocation`s standard-normal source g),
and the degraded buffer is the sample-wise sum of clean and noise, of the same
length as the clean buffer. -/
theorem claim_C8_degradation (audio : List ℚ) (g : ℕ → ℚ) :
    (make_noise audio g).length = audio.length ∧
    (∀ i, i < audio.length → (make_noise audio g).getD i 0 = 0 + (1 / 100) * g i) ∧
    (make_degraded audio g).length = audio.length ∧
    (∀ i, i < audio.length →
      (make_degraded audio g).getD i 0 = audio.getD i 0 + (make_noise audio g).getD i 0) := by
  refine ⟨make_noise_length audio g, fun i hi => ?_, ?_, fun i hi => ?_⟩
  · unfold make_noise np_random_normal
    exact getD_range_map _ _ _ hi
  · simp [make_degraded, List.length_zipWith, make_noise_length]
  · unfold make_degraded
    exact getD_zipWith_add _ _ _ hi (by rw [make_noise_length]; exact hi)

/-- Claim C8 witness: the one-sample clean buffer [1] with the degenerate
all-zero entropy source. -/
theorem claim_C8_witness :
    (make_noise [1] zeroDraws).getD 0 0 = 0 + (1 / 100) * zeroDraws 0 ∧
    (make_degraded [1] zeroDraws).getD 0 0
      = ([1] : List ℚ).getD 0 0 + (make_noise [1] zeroDraws).getD 0 0 :=
  ⟨(claim_C8_degradation [1] zeroDraws).2.1 0 (by decide),
   (claim_C8_degradation [1] zeroDraws).2.2.2 0 (by decide)⟩

/-- The success/failure component of `analyze_audio` is the except-to-option
collapse of the try-block outcome. -/
theorem analyze_audio_fst (env : PipelineEnv) :
    (analyze_audio env).1 =
      match (analyze_audio_try env).1 with
      | Except.ok r => some r
      | Except.error _ => none := by
  rcases h : analyze_audio_try env with ⟨res, evs⟩
  cases res <;> simp [analyze_audio, h]

/-- The event trace of `analyze_audio` is the trace of its try block. -/
theorem analyze_audio_snd (env : PipelineEnv) :
    (analyze_audio env).2 = (analyze_audio_try env).2 := by
  rcases h : analyze_audio_try env with ⟨res, evs⟩
  cases res <;> simp [analyze_audio, h]

/-- The conditioner always reports a 16 kHz sample rate. -/
theorem condition_signal_rate (audio : List ℚ) (rate : ℕ) :
    (condition_signal audio rate).2 = 16000 := by
  unfold condition_signal
  split_ifs with h
  · rfl
  · push_neg at h
    simp [h]

/-- Shape of every successful core result: the four-field dictionary, with
sample rate 16000. -/
theorem analyze_core_ok (env : PipelineEnv) (w : String) (r : ResultsDict)
    (h : analyze_core env w = Except.ok r) :
    ∃ score audio noise,
      r = [("pesq_score", Value.float (py_round2 score)),
           ("quality_category", Value.str (categorize_pesq score)),
           ("snr_db", Value.snr (py_round2_snr (compute_snr audio noise))),
           ("sample_rate", Value.int 16000)] := by
  unfold analyze_core at h
  rcases hr : env.read_result with e | ⟨data, rate0⟩ <;> rw [hr] at h
  · exact absurd h (by simp)
  · dsimp only at h
    split at h
    · exact absurd h (by simp)
    · rename_i score heq
      injection h with h
      refine ⟨score, (condition_signal (to_mono data) rate0).1,
        make_noise (condition_signal (to_mono data) rate0).1 env.noise_draws, ?_⟩
      rw [← h, condition_signal_rate]

/-- A successful pipeline result is a successful core result for some WAV
path. -/
theorem analyze_audio_some (env : PipelineEnv) (r : ResultsDict)
    (h : (analyze_audio env).1 = some r) :
    ∃ w, analyze_core env w = Except.ok r := by
  rw [analyze_audio_fst] at h
  rcases htry : (analyze_audio_try env).1 with e | r' <;> rw [htry] at h
  · simp at h
  · injection h with h
    subst h
    unfold analyze_audio_try at htry
    rcases hc : convert_to_wav env with ⟨cres, cevs⟩
    rw [hc] at htry
    cases cres with
    | error e => simp at htry
    | ok w => exact ⟨w, by simpa using htry⟩

/-- Claim C2 as amended: on failure the pipeline returns None — an output that
carries no error kind or cause — and every returned success record has the four
fields pesq_score, quality_category, snr_db and sample_rate populated. -/
theorem claim_C2_amended (env : PipelineEnv) :
    (∀ e, (analyze_audio_try env).1 = Except.error e → (analyze_audio env).1 = none) ∧
    (∀ r, (analyze_audio env).1 = some r →
      (List.lookup "pesq_score" r).isSome = true ∧
      (List.lookup "quality_category" r).isSome = true ∧
      (List.lookup "snr_db" r).isSome = true ∧
      (List.lookup "sample_rate" r).isSome = true) := by
  constructor
  · intro e h
    rw [analyze_audio_fst, h]
  · intro r h
    obtain ⟨w, hcore⟩ := analyze_audio_some env r h
    obtain ⟨score, audio, noise, hr⟩ := analyze_core_ok env w r hcore
    subst hr
    exact ⟨rfl, rfl, rfl, rfl⟩

/-- Claim C2, counterexample to the claim as stated: two inputs that fail for
different reasons (an unsupported PDF sniff, and a pesq computation failure on
a valid WAV) produce the identical failure output None, so the failure output
carries neither a kind among the four nor a cause string. -/
theorem claim_C2_counterexample :
    (analyze_audio envPdf).1 = none ∧ (analyze_audio envPesqFail).1 = none ∧
    (analyze_audio envPdf).1 = (analyze_audio envPesqFail).1 :=
  ⟨rfl, rfl, rfl⟩

/-- Claim C2 amended, witness: the concrete canonical-WAV environment succeeds
and its record has all four fields. -/
theorem claim_C2_amended_witness :
    (List.lookup "pesq_score" wavResults).isSome = true ∧
    (List.lookup "quality_category" wavResults).isSome = true ∧
    (List.lookup "snr_db" wavResults).isSome = true ∧
    (List.lookup "sample_rate" wavResults).isSome = true :=
  (claim_C2_amended envWav).2 wavResults (by rfl)

/-- Claim C9: the except-all clause of `analyze_audio` maps every propagated
stage exception to the return value None; in particular a failure of the
byte-level sniff and a failure of the WAV read both yield None. -/
theorem claim_C9_none_on_error (env : PipelineEnv) :
    (∀ e, (analyze_audio_try env).1 = Except.error e → (analyze_audio env).1 = none) ∧
    (∀ e, env.file_type = Except.error e → (analyze_audio env).1 = none) ∧
    (∀ e, env.read_result = Except.error e → (analyze_audio env).1 = none) := by
  refine ⟨fun e h => ?_, fun e h => ?_, fun e h => ?_⟩
  · rw [analyze_audio_fst, h]
  · have hcv : convert_to_wav env = (Except.error e, []) := by simp [convert_to_wav, h]
    have htry : (analyze_audio_try env).1 = Except.error e := by
      simp [analyze_audio_try, hcv]
    rw [analyze_audio_fst, htry]
  · rcases hc : convert_to_wav env with ⟨cres, cevs⟩
    cases cres with
    | error e2 =>
        have htry : (analyze_audio_try env).1 = Except.error e2 := by
          simp [analyze_audio_try, hc]
        rw [analyze_audio_fst, htry]
    | ok w =>
        have hcore : analyze_core env w = Except.error e := by simp [analyze_core, h]
        have htry : (analyze_audio_try env).1 = Except.error e := by
          simp [analyze_audio_try, hc, hcore]
        rw [analyze_audio_fst, htry]

/-- Claim C9 witness: a failing byte-level sniff (missing file) yields None. -/
theorem claim_C9_witness : (analyze_audio envMagicFail).1 = none :=
  (claim_C9_none_on_error envMagicFail).2.1 (PyExc.fileError "FileNotFoundError") rfl

/-- Claim C6: when the source rate differs from 16000 the conditioned buffer
has length round(N·16000/R); the conditioner always reports rate 16000; and
every success record carries sample_rate 16000. -/
theorem claim_C6_resample_16k :
    (∀ (audio : List ℚ) (rate : ℕ), rate ≠ 16000 →
      (condition_signal audio rate).1.length
        = (roundHalfEven ((audio.length : ℚ) * 16000 / (rate : ℚ))).toNat) ∧
    (∀ (audio : List ℚ) (rate : ℕ), (condition_signal audio rate).2 = 16000) ∧
    (∀ (env : PipelineEnv) (r : ResultsDict), (analyze_audio env).1 = some r →
      List.lookup "sample_rate" r = some (Value.int 16000)) := by
  refine ⟨fun audio rate h => ?_, fun audio rate => condition_signal_rate audio rate,
          fun env r h => ?_⟩
  · unfold condition_signal
    rw [if_pos h]
    simp [signal_resample]
  · obtain ⟨w, hcore⟩ := analyze_audio_some env r h
    obtain ⟨score, audio, noise, hr⟩ := analyze_core_ok env w r hcore
    subst hr
    rfl

/-- Claim C6 witness: a one-sample buffer at 8000 Hz. -/
theorem claim_C6_witness :
    (condition_signal ([0] : List ℚ) 8000).1.length
      = (roundHalfEven ((([0] : List ℚ).length : ℚ) * 16000 / ((8000 : ℕ) : ℚ))).toNat ∧
    (condition_signal ([0] : List ℚ) 8000).2 = 16000 :=
  ⟨claim_C6_resample_16k.1 [0] 8000 (by decide), claim_C6_resample_16k.2.1 [0] 8000⟩

/-- Claim C4: on every exit path, any temporary WAV created by the converter is
also deleted in the same invocation; the caller-owned input path is never
deleted; and when the input is already canonical WAV no filesystem event at all
occurs (no creation, no deletion attempt). -/
theorem claim_C4_temp_cleanup (env : PipelineEnv)
    (hne : env.temp_path ≠ env.path)
    (hwav : strEndsWith env.temp_path ".wav" = true) :
    (∀ p, FsEvent.createTemp p ∈ (analyze_audio env).2 →
        FsEvent.delete p ∈ (analyze_audio env).2) ∧
    FsEvent.delete env.path ∉ (analyze_audio env).2 ∧
    (env.file_type = Except.ok "audio/x-wav" → (analyze_audio env).2 = []) := by
  have htr : (analyze_audio env).2 = [] ∨
      (analyze_audio env).2
        = [FsEvent.createTemp env.temp_path, FsEvent.delete env.temp_path] := by
    rw [analyze_audio_snd]
    rcases hft : env.file_type with e | s
    · left
      simp [analyze_audio_try, convert_to_wav, hft]
    · by_cases hs : s = "audio/x-wav"
      · left
        have hcv : convert_to_wav env = (Except.ok env.path, []) := by
          simp [convert_to_wav, hft, hs]
        simp [analyze_audio_try, hcv]
      · by_cases hacc : (strStartsWith (probe_file_type s env.media_info) "audio/"
            || probe_file_type s env.media_info = "video/webm") = true
        · rcases hcr : env.convert_result with e2 | u
          · right
            have hcv : convert_to_wav env = (Except.error e2,
                [FsEvent.createTemp env.temp_path, FsEvent.delete env.temp_path]) := by
              simp [convert_to_wav, hft, hs, hacc, hcr, cleanup_temp_file, hwav]
            simp [analyze_audio_try, hcv]
          · right
            have hcv : convert_to_wav env
                = (Except.ok env.temp_path, [FsEvent.createTemp env.temp_path]) := by
              simp [convert_to_wav, hft, hs, hacc, hcr]
            simp [analyze_audio_try, hcv, hne, cleanup_temp_file, hwav]
        · left
          rw [Bool.not_eq_true] at hacc
          have hcv : convert_to_wav env = (Except.error (PyExc.valueError
              ("File is not an audio file or video with audio. Detected type: "
                ++ probe_file_type s env.media_info)), []) := by
            simp [convert_to_wav, hft, hs, hacc]
          simp [analyze_audio_try, hcv]
  refine ⟨?_, ?_, ?_⟩
  · intro p hp
    rcases htr with h | h <;> rw [h] at hp ⊢
    · simp at hp
    · simp at hp
      subst hp
      simp
  · rcases htr with h | h <;> rw [h]
    · simp
    · simp [Ne.symm hne]
  · intro hft2
    rw [analyze_audio_snd]
    have hcv : convert_to_wav env = (Except.ok env.path, []) := by
      simp [convert_to_wav, hft2]
    simp [analyze_audio_try, hcv]

/-- Claim C4 witness: the canonical-WAV environment has an empty event trace. -/
theorem claim_C4_witness : (analyze_audio envWav).2 = [] :=
  (claim_C4_temp_cleanup envWav (by decide) (by decide)).2.2 rfl
